import Mathlib

/-
Verification of the asninfo ASN-lookup service core against its
natural-language specification.

The repository contains two variants of the serving logic:
- src/api.rs: the router module (validating handlers `get_lookup` /
  `post_lookup`, a `health` endpoint, a background updater that writes the
  map and the timestamp while holding both locks, and the constant
  `MINIMUM_UPDATER_INTERVAL_SECS = 3600`);
- src/main.rs: the binary, whose `serve` command carries its own inline
  handlers (no request validation, envelope responses, an updater that
  writes the map and the timestamp in two separate critical sections, and a
  hardcoded 60-second interval floor).

Both variants are modelled below; definitions are named `...` for the
api.rs versions and `main...` for the main.rs versions, and each carries a
doc comment pointing at the source lines it embeds.  Rust `u32` values are
modelled as `Nat` bounded by `U32_MAX` at the parsing boundary; Rust
`HashMap<u32, AsInfoOut>` is modelled extensionally as `Nat → Option
AsInfoOut` (the handlers only ever call `get`); a `Mutex<T>` is modelled as
a value paired with its poison flag.
-/

namespace AsnInfo

/-- Organization reference carried by a record: `bgpkit_commons`'s as2org
entry, of which the service reads exactly the fields `org_id` and
`org_name` (api.rs lines 184-195, main.rs lines 98-101). -/
structure As2org where
  org_id : String
  org_name : String
deriving DecidableEq

/-- Core ASN record (`bgpkit_commons::asinfo::AsInfo`) restricted to the
fields this service's handlers read: `asn`, `name`, `country`, `as2org`
(api.rs lines 180-195).  The upstream struct carries further enrichment
fields that no modelled operation touches. -/
structure AsInfo where
  asn : Nat
  name : String
  country : String
  as2org : Option As2org
deriving DecidableEq

/-- Enriched record stored in the snapshot map: `AsInfoOut` from api.rs
lines 21-27 (identically main.rs lines 78-84): the inner `AsInfo` plus the
`country_name` enrichment. -/
structure AsInfoOut where
  inner : AsInfo
  country_name : String
deriving DecidableEq

/-- Extensional model of the snapshot map `HashMap<u32, AsInfoOut>`: the
handlers only call `get`, so the map is its lookup function. -/
abbrev Mapping := Nat → Option AsInfoOut

/-- Model of `std::sync::Mutex<T>`: the protected value together with the
poison flag.  Locking is modelled by the two access functions below. -/
structure MutexCell (α : Type) where
  poisoned : Bool
  value : α

/-- Model of `lock().unwrap_or_else(|poisoned| poisoned.into_inner())`
(api.rs lines 145-152 and 166-170): salvages the last-written value whether
or not the mutex is poisoned. -/
def lockRecover {α : Type} (c : MutexCell α) : α := c.value

/-- Model of `lock().map_err(|_| e)?` (api.rs lines 237-243 and 281-287):
a poisoned mutex is surfaced as the error `e`, otherwise the value is
returned. -/
def lockOrErr {α : Type} {ε : Type} (c : MutexCell α) (e : ε) : Except ε α :=
  if c.poisoned then .error e else .ok c.value

/-- Shared application state of the api.rs router: `AppState` from api.rs
lines 29-34 — the snapshot map and the last-updated timestamp, each behind
its own mutex, plus the configured per-request ASN maximum. -/
structure ServeState where
  map : MutexCell Mapping
  updated_at : MutexCell String
  max_asns : Nat

/-- Largest value of Rust's `u32`. -/
def U32_MAX : Nat := 4294967295

/-- Leading `+` sign accepted by Rust's `u32::from_str`. -/
def stripPlus : List Char → List Char
  | '+' :: rest => rest
  | cs => cs

/-- Numeric value of an ASCII digit character. -/
def digitVal (c : Char) : Nat := c.toNat - 48

/-- Model of `s.parse::<u32>()`: an optional leading `+`, then a non-empty
run of ASCII digits whose value fits in a `u32`; anything else fails
(api.rs line 218, main.rs line 410). -/
def parseU32 (cs : List Char) : Option Nat :=
  let ds := stripPlus cs
  if ds.isEmpty then none
  else if ds.all Char.isDigit then
    let v := ds.foldl (fun acc c => acc * 10 + digitVal c) 0
    if v ≤ U32_MAX then some v else none
  else none

/-- Model of Rust's `str::split(',')`: splits at every comma, keeping empty
pieces, so the empty string yields one empty piece. -/
def splitOnComma : List Char → List (List Char)
  | [] => [[]]
  | c :: rest =>
    let r := splitOnComma rest
    if c = ',' then [] :: r
    else
      match r with
      | [] => [[c]]
      | h :: t => (c :: h) :: t

/-- Model of `str::trim`: whitespace stripped from both ends. -/
def trimChars (cs : List Char) : List Char :=
  ((cs.dropWhile Char.isWhitespace).reverse.dropWhile Char.isWhitespace).reverse

/-- Parsing of the `asns` query parameter, api.rs lines 213-219 (identical
in main.rs lines 405-411): take the parameter (defaulting to the empty
string), split on commas, trim each piece, parse each piece as `u32`, and
drop the pieces that fail to parse. -/
def parseAsnsParam (q : Option String) : List Nat :=
  (splitOnComma (q.getD "").toList).filterMap (fun piece => parseU32 (trimChars piece))

/-- Error response `(StatusCode, Json({"error": msg}))` returned by the
api.rs handlers.  Apostrophes occurring in the original message literals
are elided. -/
structure ErrResponse where
  status : Nat
  error : String
deriving DecidableEq

/-- Internal server error returned when a lookup handler finds the map
mutex poisoned (api.rs lines 237-243 and 281-287). -/
def internalErr : ErrResponse :=
  { status := 500, error := "internal server error" }

/-- Legacy flattened record shape (api.rs lines 196-204, §6 of the spec). -/
structure LegacyRecord where
  asn : Nat
  as_name : String
  org_id : String
  org_name : String
  country_code : String
  country_name : String
  data_source : String
deriving DecidableEq

/-- Conversion of matched records to the legacy flat shape:
`convert_to_legacy`, api.rs lines 177-207 (main.rs lines 416-434 and
459-477 inline the identical per-record construction).  `org_id` and
`org_name` come from the optional `as2org` (defaulting to the empty
string), `data_source` is always the empty string. -/
def convert_to_legacy : List AsInfoOut → List LegacyRecord
  | [] => []
  | o :: rest =>
    { asn := o.inner.asn
      as_name := o.inner.name
      org_id := (o.inner.as2org.map As2org.org_id).getD ""
      org_name := (o.inner.as2org.map As2org.org_name).getD ""
      country_code := o.inner.country
      country_name := o.country_name
      data_source := "" } :: convert_to_legacy rest

/-- Rendered lookup payload: either the canonical record list or the legacy
flattened list (api.rs lines 252-257). -/
inductive LookupResults where
  | canonical (records : List AsInfoOut)
  | legacy (records : List LegacyRecord)
deriving DecidableEq

/-- Core matching loop shared by every lookup handler (api.rs lines 245-250
and 289-294, main.rs lines 492-501): iterate the requested ASNs in order
and push the record of each ASN present in the map. -/
def lookupRecs (m : Mapping) (asns : List Nat) : List AsInfoOut :=
  asns.foldl (fun acc a =>
    match m a with
    | some info => acc ++ [info]
    | none => acc) []

/-- Handler for `GET /lookup` in api.rs (lines 209-260): parse the `asns`
parameter; 400 if no ASN parsed; 413 if more than `max_asns` parsed; then
lock the map (500 if poisoned), collect the matching records, and render
them legacy or canonical according to the `legacy` parameter (default
false). -/
def get_lookup (st : ServeState) (q_asns : Option String) (q_legacy : Option Bool) :
    Except ErrResponse LookupResults :=
  let asns := parseAsnsParam q_asns
  if asns.isEmpty then
    .error { status := 400, error := "no valid ASNs provided in asns query parameter" }
  else if asns.length > st.max_asns then
    .error { status := 413
             error := "payload too large, max ASNs per request is " ++ toString st.max_asns }
  else
    match lockOrErr st.map internalErr with
    | .error e => .error e
    | .ok m =>
      let found := lookupRecs m asns
      if q_legacy.getD false then .ok (.legacy (convert_to_legacy found))
      else .ok (.canonical found)

/-- Handler for `POST /lookup` in api.rs (lines 262-297): same emptiness
and size validation on the typed body list, then lock the map (500 if
poisoned) and return the matching records — always in the canonical shape. -/
def post_lookup (st : ServeState) (body_asns : List Nat) :
    Except ErrResponse LookupResults :=
  if body_asns.isEmpty then
    .error { status := 400, error := "no ASNs provided in request body" }
  else if body_asns.length > st.max_asns then
    .error { status := 413
             error := "payload too large, max ASNs per request is " ++ toString st.max_asns }
  else
    match lockOrErr st.map internalErr with
    | .error e => .error e
    | .ok m => .ok (.canonical (lookupRecs m body_asns))

/-- The api.rs `POST /lookup` handler as a function of the whole request,
including the `legacy` query parameter: the handler's extractors (api.rs
lines 262-265) read only the body, so the query parameter is never
consulted and the output does not depend on it. -/
def post_lookup_handler (st : ServeState) (body_asns : List Nat)
    (_q_legacy : Option Bool) : Except ErrResponse LookupResults :=
  post_lookup st body_asns

/-- Body of the `GET /health` response (api.rs lines 171-174). -/
structure HealthResponse where
  status : String
  updatedAt : String
deriving DecidableEq

/-- Handler for `GET /health` (api.rs lines 165-175): salvage-read the
timestamp mutex and answer status "ok" with the stored timestamp. -/
def health (st : ServeState) : HealthResponse :=
  { status := "ok", updatedAt := lockRecover st.updated_at }

/-- Result of one call to the external loader `load_asn_map_out` (api.rs
lines 83-126): a fresh mapping and timestamp, or a coarse `i32` error
code. -/
abbrev LoadResult := Except Int (Mapping × String)

/-- Floor on the updater interval, api.rs line 128. -/
def MINIMUM_UPDATER_INTERVAL_SECS : Nat := 3600

/-- Effective sleep interval of the api.rs updater (api.rs line 137):
`refresh_secs.max(MINIMUM_UPDATER_INTERVAL_SECS)`. -/
def apiUpdaterInterval (refresh_secs : Nat) : Nat :=
  max refresh_secs MINIMUM_UPDATER_INTERVAL_SECS

/-- Effective sleep interval of the main.rs updater (main.rs line 378):
`refresh_secs.max(60)` — a hardcoded 60-second floor. -/
def mainUpdaterInterval (refresh_secs : Nat) : Nat :=
  max refresh_secs 60

/-- One cycle of the api.rs background updater (api.rs lines 138-161): on a
successful load, install the new mapping and timestamp (both locks are held
across both writes; salvage recovery means the writes land whether or not
the mutexes are poisoned, and the poison flags themselves persist); on a
failed load, log and leave the state untouched. -/
def apiCycle (st : ServeState) (load : LoadResult) : ServeState :=
  match load with
  | .ok (new_map, ts) =>
    { st with
        map := { st.map with value := new_map }
        updated_at := { st.updated_at with value := ts } }
  | .error _ => st

/-- The api.rs updater loop (api.rs lines 138-161) run over a finite
prefix of cycles, one `LoadResult` per cycle: every cycle is processed and
the loop never exits early. -/
def runUpdater (st : ServeState) : List LoadResult → ServeState
  | [] => st
  | c :: rest => runUpdater (apiCycle st c) rest

/-- Timestamp of the snapshot most recently installed after a sequence of
cycles, starting from `ts0`.  Modelled from the spec wording "the timestamp
of the snapshot most recently installed in the store at the time of the
call" — a successful cycle installs its timestamp, a failed one installs
nothing. -/
def lastInstalledTs (ts0 : String) : List LoadResult → String
  | [] => ts0
  | .ok (_, t) :: rest => lastInstalledTs t rest
  | .error _ :: rest => lastInstalledTs ts0 rest

/-- Shared application state of the main.rs serve command: `AppState` from
main.rs lines 281-285 — same two mutexes, but no configured maximum. -/
structure MainAppState where
  map : MutexCell Mapping
  updated_at : MutexCell String

/-- Envelope response of the main.rs handlers (main.rs lines 86-94 and
439-445): rendered data, its count, the stored timestamp, and fixed paging
fields. -/
structure EnvelopeResponse where
  data : LookupResults
  count : Nat
  updatedAt : String
  page : Nat
  page_size : Nat
deriving DecidableEq

/-- The main.rs `lookup` helper (main.rs lines 492-501): `map.lock()
.unwrap()` panics on a poisoned mutex (modelled as `none`), otherwise the
matching loop runs.  The loop body is the shared `lookupRecs`. -/
def mainLookup (st : MainAppState) (asns : List Nat) : Option (List AsInfoOut) :=
  if st.map.poisoned then none else some (lookupRecs st.map.value asns)

/-- Rendering step of the main.rs handlers (main.rs lines 416-437 and
459-480): legacy flag picks the flattened shape, whose per-record
construction coincides with `convert_to_legacy`. -/
def mainRender (legacyFlag : Bool) (data_full : List AsInfoOut) : LookupResults :=
  if legacyFlag then .legacy (convert_to_legacy data_full) else .canonical data_full

/-- Handler for `GET /lookup` in main.rs (lines 404-447): parse the `asns`
parameter exactly as api.rs does, but perform no validation at all — no
emptiness check, no size check — then look up (panicking on a poisoned
lock, modelled as `none`), read the timestamp with `.unwrap()` likewise,
and answer an envelope whose `page_size` is the requested count. -/
def main_get_lookup (st : MainAppState) (q_asns : Option String)
    (q_legacy : Option Bool) : Option EnvelopeResponse :=
  let asns := parseAsnsParam q_asns
  match mainLookup st asns with
  | none => none
  | some data_full =>
    if st.updated_at.poisoned then none
    else
      some { data := mainRender (q_legacy.getD false) data_full
             count := data_full.length
             updatedAt := st.updated_at.value
             page := 0
             page_size := asns.length }

/-- Handler for `POST /lookup` in main.rs (lines 449-490): same envelope
and rendering as the main.rs GET handler, the ASN list coming from the
typed body, the `legacy` query parameter still controlling the shape. -/
def main_post_lookup (st : MainAppState) (body_asns : List Nat)
    (q_legacy : Option Bool) : Option EnvelopeResponse :=
  match mainLookup st body_asns with
  | none => none
  | some data_full =>
    if st.updated_at.poisoned then none
    else
      some { data := mainRender (q_legacy.getD false) data_full
             count := data_full.length
             updatedAt := st.updated_at.value
             page := 0
             page_size := body_asns.length }

/-- Interleaved state of one main.rs refresh installing `(new_map, new_ts)`
racing one main.rs `get_lookup` reader.  `map`/`ts` are the two mutex-
protected cells; `wPC` and `rPC` are the program counters of the writer and
the reader; `obsMap`/`obsTs` record what the reader observed. -/
structure MainSysState where
  map : Mapping
  ts : String
  wPC : Nat
  rPC : Nat
  obsMap : Option Mapping
  obsTs : Option String

/-- Atomic steps of the race.  The main.rs updater (lines 383-391) writes
the map and the timestamp in two separate critical sections, so each write
is its own atomic step (`wMap` then `wTs`); the main.rs `get_lookup`
(lines 413-414) locks the map inside `lookup` and then separately locks the
timestamp, so each read is its own atomic step (`rMap` then `rTs`). -/
inductive MainStep where
  | wMap
  | wTs
  | rMap
  | rTs
deriving DecidableEq

/-- Effect of one atomic step: each step fires only at its own program
point (mutual exclusion within a critical section is already reflected by
each step being atomic).  The reader's `rMap` step observes the current map
generation — the records it matches are a function of that observation. -/
def mainExec (new_map : Mapping) (new_ts : String) (st : MainSysState) :
    MainStep → MainSysState
  | .wMap => if st.wPC = 0 then { st with map := new_map, wPC := 1 } else st
  | .wTs => if st.wPC = 1 then { st with ts := new_ts, wPC := 2 } else st
  | .rMap => if st.rPC = 0 then { st with obsMap := some st.map, rPC := 1 } else st
  | .rTs => if st.rPC = 1 then { st with obsTs := some st.ts, rPC := 2 } else st

/-- Execution of a schedule (an interleaving of the writer's and the
reader's program-ordered steps). -/
def mainRunSched (new_map : Mapping) (new_ts : String) (st : MainSysState) :
    List MainStep → MainSysState
  | [] => st
  | s :: rest => mainRunSched new_map new_ts (mainExec new_map new_ts st s) rest

/-- Initial race state: the store holds the previously installed snapshot
`(m, t)`, both programs are at their first step, nothing observed yet. -/
def mainInit (m : Mapping) (t : String) : MainSysState :=
  { map := m, ts := t, wPC := 0, rPC := 0, obsMap := none, obsTs := none }

/-- Concrete record fixture. -/
def tornRecord : AsInfoOut :=
  { inner := { asn := 13335, name := "CLOUDFLARENET", country := "US", as2org := none }
    country_name := "United States" }

/-- Mapping installed by the first refresh in the race fixture. -/
def tornMap1 : Mapping := fun _ => none

/-- Mapping installed by the second refresh in the race fixture. -/
def tornMap2 : Mapping := fun a => if a = 13335 then some tornRecord else none

/-- HTTP status of an api.rs handler outcome: the status code when the
handler answered an error response, `none` on success. -/
def errStatus : Except ErrResponse LookupResults → Option Nat
  | .error e => some e.status
  | .ok _ => none

/-- Whether an api.rs handler outcome is a successful legacy-shaped
rendering. -/
def isLegacyRendering : Except ErrResponse LookupResults → Bool
  | .ok (.legacy _) => true
  | _ => false

/-- Record fixture with an organization reference. -/
def orgRecord : AsInfoOut :=
  { inner := { asn := 3333, name := "RIPE-NCC", country := "NL"
               as2org := some { org_id := "ORG-RIEN1", org_name := "RIPE NCC" } }
    country_name := "Netherlands" }

/-- Record fixture present under key 1. -/
def recA : AsInfoOut :=
  { inner := { asn := 1, name := "AS-A", country := "US", as2org := none }
    country_name := "United States" }

/-- Record fixture present under key 2. -/
def recB : AsInfoOut :=
  { inner := { asn := 2, name := "AS-B", country := "DE", as2org := none }
    country_name := "Germany" }

/-- Mapping fixture holding `recA` at 1 and `recB` at 2. -/
def wMapFn : Mapping :=
  fun a => if a = 1 then some recA else if a = 2 then some recB else none

/-- Healthy api.rs state fixture with an empty snapshot. -/
def wSt : ServeState :=
  { map := { poisoned := false, value := fun _ => none }
    updated_at := { poisoned := false, value := "T0" }
    max_asns := 100 }

/-- Api.rs state fixture whose map mutex is poisoned. -/
def poisonedSt : ServeState :=
  { map := { poisoned := true, value := fun _ => none }
    updated_at := { poisoned := false, value := "T0" }
    max_asns := 100 }

/-- Api.rs state fixture holding `orgRecord` under key 3333. -/
def postCexSt : ServeState :=
  { map := { poisoned := false, value := fun a => if a = 3333 then some orgRecord else none }
    updated_at := { poisoned := false, value := "T0" }
    max_asns := 100 }

/-- Healthy main.rs state fixture with an empty snapshot. -/
def mainCexSt : MainAppState :=
  { map := { poisoned := false, value := fun _ => none }
    updated_at := { poisoned := false, value := "T0" } }

/-- Main.rs state fixture whose map mutex is poisoned. -/
def mainPoisonedSt : MainAppState :=
  { map := { poisoned := true, value := fun _ => none }
    updated_at := { poisoned := false, value := "T0" } }

/-- Main.rs state fixture holding `orgRecord` under key 3333. -/
def mainOrgSt : MainAppState :=
  { map := { poisoned := false, value := fun a => if a = 3333 then some orgRecord else none }
    updated_at := { poisoned := false, value := "T0" } }

/-- Unrolling of the matching loop: folding from any accumulator appends
exactly the matched records, in request order. -/
lemma lookupRecs_go (m : Mapping) (l : List Nat) (acc : List AsInfoOut) :
    l.foldl (fun acc a =>
      match m a with
      | some info => acc ++ [info]
      | none => acc) acc = acc ++ l.filterMap m := by
  induction l generalizing acc with
  | nil => simp
  | cons a t ih =>
    cases h : m a <;> simp [List.foldl_cons, h, ih]

/-- The matching loop computes `List.filterMap` of the snapshot map over
the requested ASNs. -/
lemma lookupRecs_eq_filterMap (m : Mapping) (asns : List Nat) :
    lookupRecs m asns = asns.filterMap m := by
  simpa using lookupRecs_go m asns []

/-- C3: for every snapshot mapping and requested list, the lookup loop
returns exactly the records of the requested ASNs present in the mapping —
an absent ASN is silently omitted (an all-absent request yields the empty
result, not an error), and each duplicate occurrence of a present ASN
yields a duplicate record. -/
theorem lookup_exact (m : Mapping) (asns : List Nat) :
    lookupRecs m asns = asns.filterMap m
    ∧ ((∀ a ∈ asns, m a = none) → lookupRecs m asns = [])
    ∧ (∀ a r, m a = some r →
        lookupRecs m (asns ++ [a, a]) = lookupRecs m asns ++ [r, r]) := by
  refine ⟨lookupRecs_eq_filterMap m asns, ?_, ?_⟩
  · intro h
    rw [lookupRecs_eq_filterMap]
    exact List.filterMap_eq_nil_iff.mpr h
  · intro a r h
    rw [lookupRecs_eq_filterMap, lookupRecs_eq_filterMap, List.filterMap_append]
    simp [h]

/-- Witness for C3 on the fixture snapshot `{1 ↦ recA, 2 ↦ recB}`. -/
theorem lookup_exact_witness :
    lookupRecs wMapFn [3, 4] = []
    ∧ lookupRecs wMapFn ([1, 2, 3] ++ [1, 1]) = lookupRecs wMapFn [1, 2, 3] ++ [recA, recA] := by
  refine ⟨(lookup_exact wMapFn [3, 4]).2.1 ?_, (lookup_exact wMapFn [1, 2, 3]).2.2 1 recA ?_⟩
  · decide
  · rfl

/-- C10: the lookup result preserves request order — the result of a
concatenated request is the concatenation of the results, and a single-ASN
request yields that ASN's match (if any), so the loop appends each match
while walking the request left to right. -/
theorem lookup_preserves_request_order (m : Mapping) (l₁ l₂ : List Nat) (a : Nat) :
    lookupRecs m (l₁ ++ l₂) = lookupRecs m l₁ ++ lookupRecs m l₂
    ∧ lookupRecs m [a] = (m a).toList := by
  constructor
  · simp [lookupRecs_eq_filterMap, List.filterMap_append]
  · cases h : m a <;> simp [lookupRecs_eq_filterMap, h]

/-- C5: a refresh cycle whose load fails leaves the snapshot store — map
and timestamp — exactly as it was, and the updater loop goes on to process
the remaining cycles as if the failed one had not happened. -/
theorem refresh_failure_preserves (st : ServeState) (e : Int)
    (pre post : List LoadResult) :
    apiCycle st (.error e) = st
    ∧ runUpdater st (pre ++ .error e :: post) = runUpdater st (pre ++ post) := by
  refine ⟨rfl, ?_⟩
  induction pre generalizing st with
  | nil => rfl
  | cons c cs ih => simp [runUpdater, ih]

/-- C9: after any sequence of refresh cycles, the health endpoint answers
status "ok" and the timestamp of the snapshot most recently installed. -/
theorem health_reflects_store (st : ServeState) (cycles : List LoadResult) :
    (health (runUpdater st cycles)).status = "ok"
    ∧ (health (runUpdater st cycles)).updatedAt =
        lastInstalledTs st.updated_at.value cycles := by
  refine ⟨rfl, ?_⟩
  induction cycles generalizing st with
  | nil => rfl
  | cons c rest ih =>
    cases c with
    | ok p =>
      obtain ⟨mp, tp⟩ := p
      exact ih (apiCycle st (.ok (mp, tp)))
    | error e => exact ih st

/-- C8 counterexample: the main.rs updater's effective interval at a
configured 60 seconds is 60, not the claimed maximum with the one-hour
constant (which would be 3600). -/
theorem main_interval_not_hour_floor :
    mainUpdaterInterval 60 ≠ max 60 MINIMUM_UPDATER_INTERVAL_SECS := by decide

/-- C8 amended: the api.rs updater's effective interval is the maximum of
the configured value and the explicit constant
`MINIMUM_UPDATER_INTERVAL_SECS = 3600` (a below-floor configuration is
raised to the floor); the main.rs updater instead floors the interval at a
hardcoded 60 seconds. -/
theorem updater_interval_floors (r : Nat) :
    apiUpdaterInterval r = max r MINIMUM_UPDATER_INTERVAL_SECS
    ∧ MINIMUM_UPDATER_INTERVAL_SECS = 3600
    ∧ (r < MINIMUM_UPDATER_INTERVAL_SECS → apiUpdaterInterval r = MINIMUM_UPDATER_INTERVAL_SECS)
    ∧ (MINIMUM_UPDATER_INTERVAL_SECS ≤ r → apiUpdaterInterval r = r)
    ∧ mainUpdaterInterval r = max r 60
    ∧ (60 ≤ r → mainUpdaterInterval r = r) := by
  refine ⟨rfl, rfl, ?_, ?_, rfl, ?_⟩
  · intro h; simp [apiUpdaterInterval, Nat.max_eq_right (le_of_lt h)]
  · intro h; simp [apiUpdaterInterval, Nat.max_eq_left h]
  · intro h; simp [mainUpdaterInterval, Nat.max_eq_left h]

/-- Witness for C8's amended statement at the configured intervals 60 and
7200. -/
theorem updater_interval_floors_witness :
    apiUpdaterInterval 60 = MINIMUM_UPDATER_INTERVAL_SECS
    ∧ apiUpdaterInterval 7200 = 7200
    ∧ mainUpdaterInterval 7200 = 7200 := by
  exact ⟨(updater_interval_floors 60).2.2.1 (by decide),
    (updater_interval_floors 7200).2.2.2.1 (by decide),
    (updater_interval_floors 7200).2.2.2.2.2 (by decide)⟩

/-- C1: in the main.rs serve variant the refresh installs the new map and
the new timestamp in two separate critical sections, so the schedule
"writer installs map; reader reads map, then timestamp; writer installs
timestamp" lets one request observe the second refresh's mapping paired
with the first refresh's timestamp — a pair no single replace installed
(the two fixtures differ in both components). -/
theorem mainServe_torn_read :
    (mainRunSched tornMap2 "T2" (mainInit tornMap1 "T1")
      [MainStep.wMap, MainStep.rMap, MainStep.rTs, MainStep.wTs]).obsMap = some tornMap2
    ∧ (mainRunSched tornMap2 "T2" (mainInit tornMap1 "T1")
      [MainStep.wMap, MainStep.rMap, MainStep.rTs, MainStep.wTs]).obsTs = some "T1"
    ∧ tornMap2 ≠ tornMap1 ∧ ("T1" : String) ≠ "T2" := by
  refine ⟨rfl, rfl, ?_, by decide⟩
  intro h
  have h2 := congrFun h 13335
  simp [tornMap2, tornMap1] at h2

/-- C2 counterexample: the main.rs `get_lookup` performs no validation —
on an input string with no parseable ASN it does not fail with a 400 error
as claimed, but succeeds with an envelope of empty data. -/
theorem main_get_lookup_no_validation_cex :
    main_get_lookup mainCexSt (some "") none =
      some { data := .canonical [], count := 0, updatedAt := "T0", page := 0
             page_size := 0 } := rfl

/-- C2 amended: the api.rs `get_lookup` parses the comma-delimited list
dropping every token that does not parse as a u32 and fails with 400 iff
the resulting list is empty, fails with 413 iff the list is non-empty and
longer than `max_asns`, and otherwise (map lock unpoisoned) succeeds; the
older main.rs `get_lookup` performs the same parse but no validation, and
(locks unpoisoned) always succeeds with an envelope response. -/
theorem get_lookup_validation (st : ServeState) (qa : Option String)
    (ql : Option Bool) (mst : MainAppState) :
    (errStatus (get_lookup st qa ql) = some 400 ↔ parseAsnsParam qa = [])
    ∧ (errStatus (get_lookup st qa ql) = some 413 ↔
        parseAsnsParam qa ≠ [] ∧ (parseAsnsParam qa).length > st.max_asns)
    ∧ (st.map.poisoned = false → parseAsnsParam qa ≠ [] →
        (parseAsnsParam qa).length ≤ st.max_asns →
        get_lookup st qa ql = .ok (if ql.getD false
          then .legacy (convert_to_legacy (lookupRecs st.map.value (parseAsnsParam qa)))
          else .canonical (lookupRecs st.map.value (parseAsnsParam qa))))
    ∧ (mst.map.poisoned = false → mst.updated_at.poisoned = false →
        main_get_lookup mst qa ql =
          some { data := mainRender (ql.getD false) (lookupRecs mst.map.value (parseAsnsParam qa))
                 count := (lookupRecs mst.map.value (parseAsnsParam qa)).length
                 updatedAt := mst.updated_at.value
                 page := 0
                 page_size := (parseAsnsParam qa).length }) := by
  have hmain : mst.map.poisoned = false → mst.updated_at.poisoned = false →
      main_get_lookup mst qa ql =
        some { data := mainRender (ql.getD false) (lookupRecs mst.map.value (parseAsnsParam qa))
               count := (lookupRecs mst.map.value (parseAsnsParam qa)).length
               updatedAt := mst.updated_at.value
               page := 0
               page_size := (parseAsnsParam qa).length } := by
    intro hm hu
    simp [main_get_lookup, mainLookup, hm, hu]
  by_cases h1 : (parseAsnsParam qa).isEmpty = true
  · have he : parseAsnsParam qa = [] := by
      cases h : parseAsnsParam qa with
      | nil => rfl
      | cons a t => rw [h] at h1; exact absurd h1 (by simp)
    refine ⟨?_, ?_, ?_, hmain⟩
    · simp [get_lookup, h1, errStatus, he]
    · simp [get_lookup, h1, errStatus, he]
    · intro _ hne; exact absurd he hne
  · have h1' : (parseAsnsParam qa).isEmpty = false := eq_false_of_ne_true h1
    have hne : parseAsnsParam qa ≠ [] := by
      intro he; rw [he] at h1'; exact absurd h1' (by simp)
    by_cases h2 : (parseAsnsParam qa).length > st.max_asns
    · refine ⟨?_, ?_, ?_, hmain⟩
      · simp [get_lookup, h1', h2, errStatus, hne]
      · simp [get_lookup, h1', h2, errStatus, hne]
      · intro _ _ hle; exact absurd h2 (by omega)
    · by_cases hp : st.map.poisoned = true
      · refine ⟨?_, ?_, ?_, hmain⟩
        · simp [get_lookup, h1', h2, errStatus, lockOrErr, hp, internalErr, hne]
        · simp [get_lookup, h1', h2, errStatus, lockOrErr, hp, internalErr, hne]
        · intro hp' _ _; rw [hp] at hp'; exact absurd hp' (by simp)
      · have hp' : st.map.poisoned = false := eq_false_of_ne_true hp
        refine ⟨?_, ?_, ?_, hmain⟩
        · cases hql : ql.getD false <;>
            simp [get_lookup, h1', h2, errStatus, lockOrErr, hp', hql, hne]
        · cases hql : ql.getD false <;>
            simp [get_lookup, h1', h2, errStatus, lockOrErr, hp', hql, hne]
        · intro _ _ _
          cases hql : ql.getD false <;>
            simp [get_lookup, h1', h2, lockOrErr, hp', hql]

/-- Witness for C2's amended statement: on the input "13335, foo,42" the
token foo is dropped, two ASNs remain, and both variants succeed. -/
theorem get_lookup_validation_witness :
    get_lookup wSt (some "13335, foo,42") none =
      .ok (.canonical (lookupRecs wSt.map.value (parseAsnsParam (some "13335, foo,42"))))
    ∧ main_get_lookup mainCexSt (some "13335, foo,42") none =
      some { data := mainRender false (lookupRecs mainCexSt.map.value (parseAsnsParam (some "13335, foo,42")))
             count := (lookupRecs mainCexSt.map.value (parseAsnsParam (some "13335, foo,42"))).length
             updatedAt := mainCexSt.updated_at.value
             page := 0
             page_size := (parseAsnsParam (some "13335, foo,42")).length } := by
  have h := get_lookup_validation wSt (some "13335, foo,42") none mainCexSt
  exact ⟨h.2.2.1 rfl (by decide) (by decide), h.2.2.2 rfl rfl⟩

/-- C4: converting a canonical record to the legacy flat shape copies
`asn`, the AS name, the country code and the country name, takes `org_id`
and `org_name` from the organization reference when it is present and the
empty string when it is absent, and always sets `data_source` to the empty
string. -/
theorem convert_to_legacy_spec (o : AsInfoOut) :
    (∀ g, o.inner.as2org = some g →
      convert_to_legacy [o] =
        [{ asn := o.inner.asn, as_name := o.inner.name, org_id := g.org_id
           org_name := g.org_name, country_code := o.inner.country
           country_name := o.country_name, data_source := "" }])
    ∧ (o.inner.as2org = none →
      convert_to_legacy [o] =
        [{ asn := o.inner.asn, as_name := o.inner.name, org_id := ""
           org_name := "", country_code := o.inner.country
           country_name := o.country_name, data_source := "" }]) := by
  constructor
  · intro g hg; simp [convert_to_legacy, hg]
  · intro hg; simp [convert_to_legacy, hg]

/-- Witness for C4 at a record with an organization reference and a record
without one. -/
theorem convert_to_legacy_spec_witness :
    convert_to_legacy [orgRecord] =
      [{ asn := orgRecord.inner.asn, as_name := orgRecord.inner.name
         org_id := "ORG-RIEN1", org_name := "RIPE NCC"
         country_code := orgRecord.inner.country
         country_name := orgRecord.country_name, data_source := "" }]
    ∧ convert_to_legacy [tornRecord] =
      [{ asn := tornRecord.inner.asn, as_name := tornRecord.inner.name
         org_id := "", org_name := "", country_code := tornRecord.inner.country
         country_name := tornRecord.country_name, data_source := "" }] := by
  exact ⟨(convert_to_legacy_spec orgRecord).1
      { org_id := "ORG-RIEN1", org_name := "RIPE NCC" } rfl,
    (convert_to_legacy_spec tornRecord).2 rfl⟩

/-- C6 counterexample: an api.rs lookup handler that finds the map mutex
poisoned does not recover — it surfaces the failure to the caller as a 500
Internal Server Error response, on an otherwise valid request. -/
theorem get_lookup_surfaces_poison :
    get_lookup poisonedSt (some "13335") none = .error internalErr := rfl

/-- C6 amended: the health endpoint and the refresh task recover from a
poisoned lock by salvaging the last-written value, but the api.rs lookup
handlers do not: a poisoned map lock is surfaced to the caller as a 500
Internal Server Error response (and the main.rs handlers panic on it,
modelled as no response). -/
theorem poison_salvaged_except_lookup (st : ServeState) (mst : MainAppState)
    (m : Mapping) (t : String) (qa : Option String) (ql : Option Bool)
    (asns : List Nat) :
    health st = { status := "ok", updatedAt := st.updated_at.value }
    ∧ (apiCycle st (.ok (m, t))).map.value = m
    ∧ (apiCycle st (.ok (m, t))).updated_at.value = t
    ∧ (st.map.poisoned = true → parseAsnsParam qa ≠ [] →
        (parseAsnsParam qa).length ≤ st.max_asns →
        get_lookup st qa ql = .error internalErr)
    ∧ (st.map.poisoned = true → asns ≠ [] → asns.length ≤ st.max_asns →
        post_lookup st asns = .error internalErr)
    ∧ (mst.map.poisoned = true → main_get_lookup mst qa ql = none) := by
  refine ⟨rfl, rfl, rfl, ?_, ?_, ?_⟩
  · intro hp hne hle
    have h1 : (parseAsnsParam qa).isEmpty = false := by
      cases h : parseAsnsParam qa with
      | nil => exact absurd h hne
      | cons a t => rfl
    have h2 : ¬ ((parseAsnsParam qa).length > st.max_asns) := by omega
    simp [get_lookup, lockOrErr, hp, h1, h2]
  · intro hp hne hle
    have h1 : asns.isEmpty = false := by
      cases h : asns with
      | nil => exact absurd h hne
      | cons a t => rfl
    have h2 : ¬ (asns.length > st.max_asns) := by omega
    simp [post_lookup, lockOrErr, hp, h1, h2]
  · intro hm
    simp [main_get_lookup, mainLookup, hm]

/-- Witness for C6's amended statement: on the poisoned fixtures, health
still answers, both api.rs lookup handlers answer 500, and the main.rs
handler panics. -/
theorem poison_salvaged_witness :
    health poisonedSt = { status := "ok", updatedAt := "T0" }
    ∧ get_lookup poisonedSt (some "42") none = .error internalErr
    ∧ post_lookup poisonedSt [42] = .error internalErr
    ∧ main_get_lookup mainPoisonedSt (some "42") none = none := by
  have h := poison_salvaged_except_lookup poisonedSt mainPoisonedSt
    tornMap1 "T1" (some "42") none [42]
  exact ⟨h.1, h.2.2.2.1 rfl (by decide) (by decide),
    h.2.2.2.2.1 rfl (by decide) (by decide), h.2.2.2.2.2 rfl⟩

/-- C7 counterexample: the api.rs `POST /lookup` handler, given a request
whose legacy query parameter is true and whose single requested ASN is
present (with an organization reference), renders the canonical shape, not
the legacy flattened shape. -/
theorem post_lookup_ignores_legacy_cex :
    post_lookup_handler postCexSt [3333] (some true) = .ok (.canonical [orgRecord])
    ∧ isLegacyRendering (post_lookup_handler postCexSt [3333] (some true)) = false :=
  ⟨rfl, rfl⟩

/-- C7 amended: the legacy query parameter controls the response shape for
the api.rs `GET /lookup` handler and for the main.rs `POST /lookup`
handler, but the api.rs `POST /lookup` handler never reads it: its output
is independent of the parameter and always canonical. -/
theorem post_canonical_get_legacy_contract (st : ServeState) (mst : MainAppState)
    (asns : List Nat) (b1 b2 : Option Bool) (qa : Option String) :
    post_lookup_handler st asns b1 = post_lookup_handler st asns b2
    ∧ (st.map.poisoned = false → asns ≠ [] → asns.length ≤ st.max_asns →
        post_lookup_handler st asns b1 = .ok (.canonical (lookupRecs st.map.value asns)))
    ∧ (st.map.poisoned = false → parseAsnsParam qa ≠ [] →
        (parseAsnsParam qa).length ≤ st.max_asns →
        get_lookup st qa (some true) =
          .ok (.legacy (convert_to_legacy (lookupRecs st.map.value (parseAsnsParam qa))))
        ∧ get_lookup st qa none =
          .ok (.canonical (lookupRecs st.map.value (parseAsnsParam qa))))
    ∧ (mst.map.poisoned = false → mst.updated_at.poisoned = false →
        main_post_lookup mst asns (some true) =
          some { data := .legacy (convert_to_legacy (lookupRecs mst.map.value asns))
                 count := (lookupRecs mst.map.value asns).length
                 updatedAt := mst.updated_at.value, page := 0
                 page_size := asns.length }
        ∧ main_post_lookup mst asns none =
          some { data := .canonical (lookupRecs mst.map.value asns)
                 count := (lookupRecs mst.map.value asns).length
                 updatedAt := mst.updated_at.value, page := 0
                 page_size := asns.length }) := by
  refine ⟨rfl, ?_, ?_, ?_⟩
  · intro hp hne hle
    have h1 : asns.isEmpty = false := by
      cases h : asns with
      | nil => exact absurd h hne
      | cons a t => rfl
    have h2 : ¬ (asns.length > st.max_asns) := by omega
    simp [post_lookup_handler, post_lookup, lockOrErr, hp, h1, h2]
  · intro hp hne hle
    have h1 : (parseAsnsParam qa).isEmpty = false := by
      cases h : parseAsnsParam qa with
      | nil => exact absurd h hne
      | cons a t => rfl
    have h2 : ¬ ((parseAsnsParam qa).length > st.max_asns) := by omega
    constructor
    · simp [get_lookup, lockOrErr, hp, h1, h2]
    · simp [get_lookup, lockOrErr, hp, h1, h2]
  · intro hm hu
    constructor
    · simp [main_post_lookup, mainLookup, mainRender, hm, hu]
    · simp [main_post_lookup, mainLookup, mainRender, hm, hu]

/-- Witness for C7's amended statement on the fixture snapshot holding
`orgRecord` under 3333. -/
theorem post_canonical_witness :
    post_lookup_handler postCexSt [3333] (some true) =
      post_lookup_handler postCexSt [3333] (some false)
    ∧ post_lookup_handler postCexSt [3333] (some true) =
      .ok (.canonical (lookupRecs postCexSt.map.value [3333]))
    ∧ get_lookup postCexSt (some "3333") (some true) =
      .ok (.legacy (convert_to_legacy (lookupRecs postCexSt.map.value
        (parseAsnsParam (some "3333")))))
    ∧ main_post_lookup mainOrgSt [3333] (some true) =
      some { data := .legacy (convert_to_legacy (lookupRecs mainOrgSt.map.value [3333]))
             count := (lookupRecs mainOrgSt.map.value [3333]).length
             updatedAt := mainOrgSt.updated_at.value, page := 0
             page_size := 1 } := by
  have h := post_canonical_get_legacy_contract postCexSt mainOrgSt [3333]
    (some true) (some false) (some "3333")
  exact ⟨h.1, h.2.1 rfl (by decide) (by decide),
    (h.2.2.1 rfl (by decide) (by decide)).1, (h.2.2.2 rfl rfl).1⟩

end AsnInfo
